import Mathlib

/-!
Shallow embedding of src/client/src/services/Channels.ts (KonomiTV client,
channel directory and Jikkyo commentary gateway service layer).

TypeScript values are embedded as follows: string becomes String, number
becomes Int, T | null becomes Option T, boolean becomes Bool.  The union
type ChannelType is a compile-time annotation in TypeScript with no runtime
check, so the runtime type tag of a channel is embedded as a String and the
closed set of valid tags as a list of strings.  The generic API client
returns either a typed success payload or an error envelope; it is embedded
as the two-constructor APIResponse type, and each service operation becomes
a total function from the response it received to the pair of its returned
value (Option, null for the soft-failure path) and the list of notification
messages it emitted.  Request construction (HTTP method, interpolated path,
body) is embedded as a separate request-builder definition per operation,
mirroring the template literal passed to APIClient.get / APIClient.post in
the same source function.
-/

set_option autoImplicit false
set_option linter.unusedVariables false

/-- Modelled from the spec: program metadata for the "now" and "next" slots
(interface IProgram from services/Programs, which is not part of the given
sources; the spec describes it only as optional program metadata). -/
structure IProgram where
  id : String
  title : String
deriving DecidableEq, Repr

/-- Modelled from the spec: the default program-slot value exported by
services/Programs (not part of the given sources) and assigned to the two
nullable program slots of the placeholder LiveChannel.  The spec states the
placeholder has both program slots null (absent before data loads), so the
default slot value is the null slot. -/
def IProgramDefault : Option IProgram := none

/-- The closed set of channel type tags, from the source union type
ChannelType = GR | BS | CS | CATV | SKY | STARDIGIO. -/
def ChannelType : List String := ["GR", "BS", "CS", "CATV", "SKY", "STARDIGIO"]

/-- Membership in the closed channel type set. -/
def isChannelType (s : String) : Bool := ChannelType.contains s

/-- The human-facing channel type labels, from the source union type
ChannelTypePretty. -/
def ChannelTypePretty : List String :=
  ["ピン留め", "地デジ", "BS", "CS", "CATV", "SKY", "StarDigio"]

/-- interface IChannel from the source. -/
structure IChannel where
  id : String
  display_channel_id : String
  network_id : Int
  service_id : Int
  transport_stream_id : Option Int
  remocon_id : Int
  channel_number : String
  type : String
  name : String
  jikkyo_force : Option Int
  is_subchannel : Bool
  is_radiochannel : Bool
  is_watchable : Bool
deriving DecidableEq, Repr

/-- interface ILiveChannel extends IChannel from the source. -/
structure ILiveChannel extends IChannel where
  is_display : Bool
  viewer_count : Int
  program_present : Option IProgram
  program_following : Option IProgram
deriving DecidableEq, Repr

/-- const ILiveChannelDefault from the source, field by field.  The two
program slots are assigned IProgramDefault exactly as in the source. -/
def ILiveChannelDefault : ILiveChannel :=
  { id := "NID0-SID0"
    display_channel_id := "gr000"
    network_id := 0
    service_id := 0
    transport_stream_id := none
    remocon_id := 0
    channel_number := "---"
    type := "GR"
    name := "取得中…"
    jikkyo_force := none
    is_subchannel := false
    is_radiochannel := false
    is_watchable := true
    is_display := true
    viewer_count := 0
    program_present := IProgramDefault
    program_following := IProgramDefault }

/-- interface ILiveChannelsList from the source: the directory grouped into
the six type buckets. -/
structure ILiveChannelsList where
  GR : List ILiveChannel
  BS : List ILiveChannel
  CS : List ILiveChannel
  CATV : List ILiveChannel
  SKY : List ILiveChannel
  STARDIGIO : List ILiveChannel
deriving DecidableEq, Repr

/-- interface IJikkyoWebSocketInfo from the source. -/
structure IJikkyoWebSocketInfo where
  websocket_url : Option String
  is_nxjikkyo_exclusive : Bool
deriving DecidableEq, Repr

/-- interface IJikkyoSendCommentRequest from the source. -/
structure IJikkyoSendCommentRequest where
  text : String
  color : String
  position : String
  size : String
  vpos : Int
deriving DecidableEq, Repr

/-- interface IJikkyoSendCommentResult from the source. -/
structure IJikkyoSendCommentResult where
  is_success : Bool
  detail : String
deriving DecidableEq, Repr

/-- Modelled from the spec: the error envelope returned by the shared API
client (whose sources are not given).  The spec says only that it carries
enough detail for a generic human-readable failure message; its exact shape
is owned by the transport collaborator. -/
structure APIError where
  detail : Option String
deriving DecidableEq, Repr

/-- The result of one API client round trip: either a typed success payload
or an error envelope (the response.type check in the source distinguishes
exactly these two cases). -/
inductive APIResponse (α : Type) where
  | success (data : α)
  | error (e : APIError)
deriving DecidableEq, Repr

/-- One HTTP request as issued by this layer: method, path (built in the
source by direct template-literal interpolation of the channel identifier)
and the optional JSON body (only the comment submission has one). -/
structure APIRequest where
  method : String
  path : String
  body : Option IJikkyoSendCommentRequest
deriving DecidableEq, Repr

/-- Modelled from the spec: APIClient.showGenericError (not part of the
given sources) displays one generic user-facing notification per call,
built from the message the failing operation passes it.  The notification
content is embedded as that message string. -/
def APIClient.showGenericError (e : APIError) (message : String) : String :=
  message

namespace Channels

/-- Request issued by Channels.fetchAll: GET /channels, no body. -/
def fetchAllRequest : APIRequest :=
  { method := "GET", path := "/channels", body := none }

/-- Channels.fetchAll, as a function of the API response it received:
on an error envelope it shows one generic notification and returns null,
otherwise it returns response.data unchanged. -/
def fetchAll (response : APIResponse ILiveChannelsList) :
    Option ILiveChannelsList × List String :=
  match response with
  | .error e =>
      (none, [APIClient.showGenericError e "チャンネル情報を取得できませんでした。"])
  | .success data => (some data, [])

/-- Request issued by Channels.fetch: GET /channels/<channel_id> built by
direct string interpolation of the identifier, no body. -/
def fetchRequest (channel_id : String) : APIRequest :=
  { method := "GET", path := "/channels/" ++ channel_id, body := none }

/-- Channels.fetch (single-channel resolver), as a function of the channel
identifier and the API response it received: on an error envelope it shows
one generic notification (the same message as fetchAll) and returns null,
otherwise it returns response.data unchanged. -/
def fetch (channel_id : String) (response : APIResponse ILiveChannel) :
    Option ILiveChannel × List String :=
  match response with
  | .error e =>
      (none, [APIClient.showGenericError e "チャンネル情報を取得できませんでした。"])
  | .success data => (some data, [])

/-- Request issued by Channels.fetchJikkyoWebSocketInfo:
GET /channels/<channel_id>/jikkyo built by direct string interpolation of
the identifier, no body. -/
def fetchJikkyoWebSocketInfoRequest (channel_id : String) : APIRequest :=
  { method := "GET", path := "/channels/" ++ channel_id ++ "/jikkyo", body := none }

/-- Channels.fetchJikkyoWebSocketInfo (Jikkyo gateway locator), as a
function of the channel identifier and the API response it received: on an
error envelope it shows one generic notification and returns null,
otherwise it returns response.data unchanged (including when the payload
carries a null websocket_url). -/
def fetchJikkyoWebSocketInfo (channel_id : String)
    (response : APIResponse IJikkyoWebSocketInfo) :
    Option IJikkyoWebSocketInfo × List String :=
  match response with
  | .error e =>
      (none, [APIClient.showGenericError e "コメント受信用 WebSocket API の情報を取得できませんでした。"])
  | .success data => (some data, [])

/-- Request issued by Channels.sendJikkyoComment:
POST /channels/<channel_id>/jikkyo/comment built by direct string
interpolation of the identifier, with the comment object passed to
APIClient.post as the body exactly as the caller supplied it. -/
def sendJikkyoCommentRequest (channel_id : String)
    (comment : IJikkyoSendCommentRequest) : APIRequest :=
  { method := "POST"
    path := "/channels/" ++ channel_id ++ "/jikkyo/comment"
    body := some comment }

/-- Channels.sendJikkyoComment (comment relay), as a function of the
channel identifier, the submitted comment and the API response it
received: on an error envelope it shows one generic notification and
returns null, otherwise it returns response.data (the CommentResult, even
when is_success is false) unchanged. -/
def sendJikkyoComment (channel_id : String)
    (comment : IJikkyoSendCommentRequest)
    (response : APIResponse IJikkyoSendCommentResult) :
    Option IJikkyoSendCommentResult × List String :=
  match response with
  | .error e =>
      (none, [APIClient.showGenericError e "ニコニコ実況へのコメント送信に失敗しました。"])
  | .success data => (some data, [])

end Channels

/-- All channels of a directory, buckets concatenated in field order. -/
def ILiveChannelsList.channels (d : ILiveChannelsList) : List ILiveChannel :=
  d.GR ++ d.BS ++ d.CS ++ d.CATV ++ d.SKY ++ d.STARDIGIO

/-- No string occurs twice in the list. -/
def nodupStrings : List String → Bool
  | [] => true
  | x :: xs => (!xs.contains x) && nodupStrings xs

/-- Every channel of every bucket carries the type tag of its bucket. -/
def bucketsWellTyped (d : ILiveChannelsList) : Bool :=
  d.GR.all (fun c => c.type == "GR") &&
  d.BS.all (fun c => c.type == "BS") &&
  d.CS.all (fun c => c.type == "CS") &&
  d.CATV.all (fun c => c.type == "CATV") &&
  d.SKY.all (fun c => c.type == "SKY") &&
  d.STARDIGIO.all (fun c => c.type == "STARDIGIO")

/-- The directory invariant claimed by the spec: the union of the six
buckets has no duplicate channel id, and each channel sits in the bucket
matching its own type tag (hence in exactly one bucket, since the tags are
pairwise distinct). -/
def directoryInvariant (d : ILiveChannelsList) : Bool :=
  nodupStrings (d.channels.map (fun c => c.id)) && bucketsWellTyped d

/-- A concrete error envelope used in concrete evaluations. -/
def apiError500 : APIError := { detail := some "Internal Server Error" }

/-- A concrete well-formed comment submission. -/
def sampleComment : IJikkyoSendCommentRequest :=
  { text := "こんにちは", color := "white", position := "naka", size := "medium", vpos := 120 }

/-- A concrete malformed comment submission: empty text and negative vpos. -/
def malformedComment : IJikkyoSendCommentRequest :=
  { text := "", color := "white", position := "naka", size := "medium", vpos := -5 }

/-- A concrete terrestrial channel with a well-formed type tag. -/
def sampleChannelGR : ILiveChannel :=
  { id := "NID32736-SID1024"
    display_channel_id := "gr011"
    network_id := 32736
    service_id := 1024
    transport_stream_id := some 32736
    remocon_id := 1
    channel_number := "011"
    type := "GR"
    name := "NHK総合"
    jikkyo_force := none
    is_subchannel := false
    is_radiochannel := false
    is_watchable := true
    is_display := true
    viewer_count := 10
    program_present := none
    program_following := none }

/-- A concrete BS channel with a well-formed type tag. -/
def sampleChannelBS : ILiveChannel :=
  { sampleChannelGR with
    id := "NID4-SID101"
    display_channel_id := "bs101"
    type := "BS"
    name := "NHK BS"
    channel_number := "101" }

/-- A concrete channel whose type tag lies outside the closed six-element
set. -/
def unknownTypeChannel : ILiveChannel :=
  { sampleChannelGR with id := "NID9-SID9", type := "UNKNOWN" }

/-- A well-formed directory: one terrestrial and one BS channel, each in
the bucket matching its type. -/
def goodDirectory : ILiveChannelsList :=
  { GR := [sampleChannelGR], BS := [sampleChannelBS]
    CS := [], CATV := [], SKY := [], STARDIGIO := [] }

/-- A directory violating the bucket invariant: a channel whose type tag is
GR placed in the BS bucket. -/
def misfiledDirectory : ILiveChannelsList :=
  { GR := [], BS := [sampleChannelGR]
    CS := [], CATV := [], SKY := [], STARDIGIO := [] }

/-- A directory whose only channel carries a type tag outside the closed
set. -/
def unknownTypeDirectory : ILiveChannelsList :=
  { GR := [unknownTypeChannel], BS := []
    CS := [], CATV := [], SKY := [], STARDIGIO := [] }

/-- Claim C1: for every error envelope, each of the four operations returns
null together with exactly one notification (the singleton list below), and
for every success payload no notification is emitted.  No exception is
observable by the caller: each operation is a total function into a plain
result pair, with no exception channel in its type. -/
theorem c1_transport_error_null_and_one_notification
    (e : APIError) (cid : String) (c : IJikkyoSendCommentRequest) :
    (Channels.fetchAll (.error e) =
        (none, ["チャンネル情報を取得できませんでした。"]) ∧
      Channels.fetch cid (.error e) =
        (none, ["チャンネル情報を取得できませんでした。"]) ∧
      Channels.fetchJikkyoWebSocketInfo cid (.error e) =
        (none, ["コメント受信用 WebSocket API の情報を取得できませんでした。"]) ∧
      Channels.sendJikkyoComment cid c (.error e) =
        (none, ["ニコニコ実況へのコメント送信に失敗しました。"])) ∧
    ((∀ d, (Channels.fetchAll (.success d)).2 = []) ∧
      (∀ d, (Channels.fetch cid (.success d)).2 = []) ∧
      (∀ d, (Channels.fetchJikkyoWebSocketInfo cid (.success d)).2 = []) ∧
      (∀ d, (Channels.sendJikkyoComment cid c (.success d)).2 = [])) :=
  ⟨⟨rfl, rfl, rfl, rfl⟩,
    ⟨fun _ => rfl, fun _ => rfl, fun _ => rfl, fun _ => rfl⟩⟩

/-- Claim C2: the placeholder LiveChannel has is_watchable true, both
program slots null, viewer_count zero; being a value of the very
ILiveChannel type a successful fetch returns, it is structurally
interchangeable with real data (last conjunct: it round-trips through the
single-channel resolver as a success payload). -/
theorem c2_placeholder_live_channel :
    ILiveChannelDefault.is_watchable = true ∧
    ILiveChannelDefault.program_present = none ∧
    ILiveChannelDefault.program_following = none ∧
    ILiveChannelDefault.viewer_count = 0 ∧
    Channels.fetch "gr000" (.success ILiveChannelDefault) =
      (some ILiveChannelDefault, []) :=
  ⟨rfl, rfl, rfl, rfl, rfl⟩

/-- Claim C3: a comment submission that round-trips successfully with a
server-reported rejection (is_success false) yields that exact
CommentResult, not null, and emits no notification. -/
theorem c3_server_rejection_is_normal_result
    (cid : String) (c : IJikkyoSendCommentRequest)
    (r : IJikkyoSendCommentResult) (h : r.is_success = false) :
    Channels.sendJikkyoComment cid c (.success r) = (some r, []) :=
  rfl

/-- Concrete instance of C3: the rate-limited rejection is returned as is,
with no notification. -/
theorem c3_witness :
    Channels.sendJikkyoComment "gr011" sampleComment
        (.success { is_success := false, detail := "rate limited" }) =
      (some { is_success := false, detail := "rate limited" }, []) :=
  c3_server_rejection_is_normal_result "gr011" sampleComment
    { is_success := false, detail := "rate limited" } rfl

/-- Claim C4: a gateway locate call that succeeds with a null
websocket_url yields that JikkyoGatewayInfo as a non-null result and emits
no notification, distinct from the transport-failure outcome. -/
theorem c4_null_websocket_url_is_success
    (cid : String) (info : IJikkyoWebSocketInfo)
    (h : info.websocket_url = none) :
    Channels.fetchJikkyoWebSocketInfo cid (.success info) = (some info, []) :=
  rfl

/-- Concrete instance of C4: the no-commentary-now payload is returned as
is, with no notification. -/
theorem c4_witness :
    Channels.fetchJikkyoWebSocketInfo "gr011"
        (.success { websocket_url := none, is_nxjikkyo_exclusive := false }) =
      (some { websocket_url := none, is_nxjikkyo_exclusive := false }, []) :=
  c4_null_websocket_url_is_success "gr011"
    { websocket_url := none, is_nxjikkyo_exclusive := false } rfl

/-- Counterexample to claim C5 as stated: fetchAll performs no validation,
so a successful response whose directory violates the bucket invariant (a
GR-typed channel filed in the BS bucket) is returned verbatim. -/
theorem c5_counterexample :
    (Channels.fetchAll (.success misfiledDirectory)).1 = some misfiledDirectory ∧
    directoryInvariant misfiledDirectory = false :=
  ⟨rfl, by decide⟩

/-- Claim C5 amended: fetchAll returns the directory of a successful
response verbatim and never establishes the bucket invariant itself; the
directory returned by a successful fetchAll satisfies the invariant
exactly when the server payload does. -/
theorem c5_invariant_preserved_not_established
    (d : ILiveChannelsList) (h : directoryInvariant d = true) :
    Channels.fetchAll (.success d) = (some d, []) ∧
    ∀ r, (Channels.fetchAll (.success d)).1 = some r →
      directoryInvariant r = true := by
  refine ⟨rfl, ?_⟩
  intro r hr
  have hd : d = r := Option.some.inj hr
  exact hd ▸ h

/-- Concrete instance of C5 amended: a well-formed two-channel directory
(one terrestrial, one BS) passes through fetchAll unchanged. -/
theorem c5_witness :
    directoryInvariant goodDirectory = true ∧
    Channels.fetchAll (.success goodDirectory) = (some goodDirectory, []) :=
  ⟨by decide, (c5_invariant_preserved_not_established goodDirectory (by decide)).1⟩

/-- Counterexample to claim C6 as stated: a successful response containing
a channel whose type tag lies outside the closed six-element set is
accepted silently — fetchAll returns it unchanged with no notification,
and never rejects or throws. -/
theorem c6_counterexample :
    isChannelType unknownTypeChannel.type = false ∧
    Channels.fetchAll (.success unknownTypeDirectory) =
      (some unknownTypeDirectory, []) :=
  ⟨by decide, rfl⟩

/-- Claim C6 amended: the layer performs no runtime validation of type
tags; for every successful response, even one containing a channel with an
out-of-set tag, fetchAll returns the payload unchanged with no
notification (the closed set is a compile-time annotation only). -/
theorem c6_no_runtime_tag_validation
    (d : ILiveChannelsList) (c : ILiveChannel)
    (hmem : c ∈ d.channels) (htag : isChannelType c.type = false) :
    Channels.fetchAll (.success d) = (some d, []) :=
  rfl

/-- Concrete instance of C6 amended: the directory holding a channel with
tag UNKNOWN is accepted and returned verbatim. -/
theorem c6_witness :
    Channels.fetchAll (.success unknownTypeDirectory) =
      (some unknownTypeDirectory, []) :=
  c6_no_runtime_tag_validation unknownTypeDirectory unknownTypeChannel
    (by decide) (by decide)

/-- Counterexample to claim C7 as stated: on the same error envelope,
fetchAll and fetch emit exactly the same single notification, so the
notifications emitted by these two distinct operations do not identify
which of the four operations failed. -/
theorem c7_counterexample :
    (Channels.fetchAll (.error apiError500)).2 =
      (Channels.fetch "gr011" (.error apiError500)).2 ∧
    (Channels.fetchAll (.error apiError500)).2.length = 1 :=
  ⟨rfl, rfl⟩

/-- Claim C7 amended: each operation emits one fixed generic message on a
transport error; the directory fetch and the single-channel fetch share
one message, while the gateway locate and the comment submit each use a
message distinct from the other groups — so the notification identifies
the failed operation only up to the fetchAll/fetch pair. -/
theorem c7_notifications_distinguish_three_groups
    (e : APIError) (cid : String) (c : IJikkyoSendCommentRequest) :
    (Channels.fetchAll (.error e)).2 =
      ["チャンネル情報を取得できませんでした。"] ∧
    (Channels.fetch cid (.error e)).2 =
      ["チャンネル情報を取得できませんでした。"] ∧
    (Channels.fetchJikkyoWebSocketInfo cid (.error e)).2 =
      ["コメント受信用 WebSocket API の情報を取得できませんでした。"] ∧
    (Channels.sendJikkyoComment cid c (.error e)).2 =
      ["ニコニコ実況へのコメント送信に失敗しました。"] ∧
    (Channels.fetchAll (.error e)).2 ≠
      (Channels.fetchJikkyoWebSocketInfo cid (.error e)).2 ∧
    (Channels.fetchAll (.error e)).2 ≠
      (Channels.sendJikkyoComment cid c (.error e)).2 ∧
    (Channels.fetchJikkyoWebSocketInfo cid (.error e)).2 ≠
      (Channels.sendJikkyoComment cid c (.error e)).2 := by
  refine ⟨rfl, rfl, rfl, rfl, ?_, ?_, ?_⟩
  · show ["チャンネル情報を取得できませんでした。"] ≠
      ["コメント受信用 WebSocket API の情報を取得できませんでした。"]
    decide
  · show ["チャンネル情報を取得できませんでした。"] ≠
      ["ニコニコ実況へのコメント送信に失敗しました。"]
    decide
  · show ["コメント受信用 WebSocket API の情報を取得できませんでした。"] ≠
      ["ニコニコ実況へのコメント送信に失敗しました。"]
    decide

/-- Claim C8: sendJikkyoComment performs no local pre-validation: the
request body is the submitted comment unchanged for every submission
(including the concrete malformed one with empty text and negative vpos),
and the outcome of the operation never depends on the comment content. -/
theorem c8_no_local_prevalidation
    (cid : String) (c : IJikkyoSendCommentRequest)
    (response : APIResponse IJikkyoSendCommentResult) :
    (Channels.sendJikkyoCommentRequest cid c).body = some c ∧
    (Channels.sendJikkyoCommentRequest cid c).method = "POST" ∧
    Channels.sendJikkyoCommentRequest cid malformedComment =
      { method := "POST"
        path := "/channels/" ++ cid ++ "/jikkyo/comment"
        body := some malformedComment } ∧
    (∀ c2, Channels.sendJikkyoComment cid c response =
      Channels.sendJikkyoComment cid c2 response) := by
  refine ⟨rfl, rfl, rfl, ?_⟩
  intro c2
  cases response <;> rfl

/-- Claim C9: on every non-error response, each of the four operations
returns the payload exactly as received, with no transformation and no
notification. -/
theorem c9_payload_passthrough (cid : String) (c : IJikkyoSendCommentRequest) :
    (∀ d : ILiveChannelsList, Channels.fetchAll (.success d) = (some d, [])) ∧
    (∀ d : ILiveChannel, Channels.fetch cid (.success d) = (some d, [])) ∧
    (∀ d : IJikkyoWebSocketInfo,
      Channels.fetchJikkyoWebSocketInfo cid (.success d) = (some d, [])) ∧
    (∀ d : IJikkyoSendCommentResult,
      Channels.sendJikkyoComment cid c (.success d) = (some d, [])) :=
  ⟨fun _ => rfl, fun _ => rfl, fun _ => rfl, fun _ => rfl⟩

/-- Claim C10: the three per-channel operations build their request paths
by direct string interpolation of the identifier with no encoding or
escaping; consequently an identifier containing a slash changes the
requested route (last conjunct: fetching channel id gr011/jikkyo requests
exactly the gateway-locate route of channel gr011). -/
theorem c10_path_interpolation_unescaped
    (cid : String) (c : IJikkyoSendCommentRequest) :
    (Channels.fetchRequest cid).path = "/channels/" ++ cid ∧
    (Channels.fetchJikkyoWebSocketInfoRequest cid).path =
      "/channels/" ++ cid ++ "/jikkyo" ∧
    (Channels.sendJikkyoCommentRequest cid c).path =
      "/channels/" ++ cid ++ "/jikkyo/comment" ∧
    (Channels.fetchRequest "gr011/jikkyo").path =
      (Channels.fetchJikkyoWebSocketInfoRequest "gr011").path := by
  refine ⟨rfl, rfl, rfl, ?_⟩
  decide
